import Mathlib

/-!
Verification of the `shop` Django application (`src/shop/views.py`) against its
natural-language specification.

The embedding models the database-backed state explicitly:
a `DB` holds the user records, the `UserType` reference table (as the list of
existing role typenames, since a `UserType` row is identified by its unique
`typename`), the goods records, and the id counter used for inserts.  A Django
session is reduced to its only field used by this application, the optional
`user_id` key: `Option Nat`, where `none` means the session holds no user
association (a flushed session and a session without the key behave alike for
every operation modelled here).

`models.py`, `forms.py`, `utils.py` and the templates are not part of the
source snapshot; the definitions that stand in for them carry a doc comment
starting with `Modelled from the spec:` and follow the specification's words.
All other definitions are translated directly from `src/shop/views.py`.
-/

namespace DjangoShop

/-- A stored `User` row: id (primary key), unique `username`, unique `email`,
`password` (a hash), and `type`, the typename of the referenced `UserType`
row (roles are reference data identified by their unique typename). -/
structure UserR where
  id : Nat
  username : String
  email : String
  password : String
  type : String
  deriving Repr, DecidableEq

/-- A stored `Goods` row: id, `goods_name`, and the owning seller's user id
(price, image and description play no role in the modelled behaviour). -/
structure GoodsR where
  id : Nat
  goods_name : String
  seller_id : Nat
  deriving Repr, DecidableEq

/-- The persistent store: user rows, the `UserType` table (list of existing
role typenames), goods rows, and the id the next inserted user receives. -/
structure DB where
  users : List UserR
  usertypes : List String
  goods : List GoodsR
  nextId : Nat
  deriving Repr, DecidableEq

/-- `User.objects.get(id=uid)`: the user row with primary key `uid`. -/
def findUserById (db : DB) (uid : Nat) : Option UserR :=
  db.users.find? (fun u => u.id == uid)

/-- `User.objects.get(username=name)`: the user row with that username. -/
def findUserByUsername (db : DB) (name : String) : Option UserR :=
  db.users.find? (fun u => u.username == name)

/-- `UserType.objects.get(typename=name)`: `some name` when the role exists in
the reference table, `none` when the lookup raises `DoesNotExist`. -/
def getUserType (db : DB) (name : String) : Option String :=
  if db.usertypes.contains name then some name else none

/-- `associate_user_to_client(request, user_id)` from views.py: `None` flushes
the whole session, an id stores it under the `user_id` key. -/
def associate_user_to_client (session : Option Nat) (user_id : Option Nat) : Option Nat :=
  match user_id with
  | none => none
  | some uid => some uid

/-- `get_current_user(request)` from views.py: read `user_id` from the session
(`KeyError` when absent → return `None` with the session untouched), fetch the
user (`DoesNotExist` → clear the stale association via
`associate_user_to_client(request, None)` and return `None`).  Returns the
resolved identity together with the session state after the call. -/
def get_current_user (db : DB) (session : Option Nat) : Option UserR × Option Nat :=
  match session with
  | none => (none, none)
  | some uid =>
    match findUserById db uid with
    | some u => (some u, some uid)
    | none => (none, associate_user_to_client (some uid) none)

/-- The `usertype` parameter accepted by the `user_auth` decorator: `None`,
a single role name, or a list/tuple whose items are role names or `None`
(any other Python value is rejected with `TypeError` at decoration time,
so it never reaches a request). -/
inductive TypeSpec where
  | anon
  | single (name : String)
  | multi (names : List (Option String))
  deriving Repr, DecidableEq

/-- The list comprehension
`[UserType.objects.get(typename=t) if t else None for t in usertype]`:
a falsy item (`None` or the empty string) contributes `None`; a role name is
looked up, and a missing role makes the whole comprehension raise
(`DoesNotExist`, modelled as `none`). -/
def authRoleList (db : DB) : List (Option String) → Option (List (Option String))
  | [] => some []
  | t :: ts =>
    let hd : Option (Option String) :=
      match t with
      | none => some none
      | some s => if s = "" then some none else (getUserType db s).map some
    match hd, authRoleList db ts with
    | some h, some rest => some (h :: rest)
    | _, _ => none

/-- The authorization test inside `user_auth`'s wrapper, given the caller's
role (`current_user.type if current_user else None`).  `none` means the check
itself raised `DoesNotExist` on a role-name lookup. -/
def checkAuth (db : DB) (usertype : TypeSpec) (role : Option String) : Option Bool :=
  match usertype with
  | .anon => some (role == none)
  | .single name =>
    match getUserType db name with
    | some t => some (role == some t)
    | none => none
  | .multi names =>
    match authRoleList db names with
    | some auth => some (auth.contains role)
    | none => none

/-- Outcome of a call to a `user_auth`-wrapped handler: the handler ran and
returned `result`, or a redirect to `viewname` was returned instead, or the
wrapper itself raised. -/
inductive WrapResult (α : Type) where
  | invoked (result : α)
  | redirected (viewname : String)
  | raised
  deriving Repr, DecidableEq

/-- `user_auth(usertype, error_viewname)` from views.py applied to a handler:
resolve the identity (which may heal the session), compute the caller's role,
check membership; on success call the handler on the request as it now stands,
otherwise redirect to `error_viewname`, defaulting to `shop:error_403`.
The pair also carries the session as left by identity resolution. -/
def user_auth {α : Type} (db : DB) (usertype : TypeSpec) (error_viewname : Option String)
    (func : Option Nat → α) (session : Option Nat) : WrapResult α × Option Nat :=
  let r := get_current_user db session
  let current_usertype := r.1.map UserR.type
  match checkAuth db usertype current_usertype with
  | none => (.raised, r.2)
  | some true => (.invoked (func r.2), r.2)
  | some false =>
    match error_viewname with
    | none => (.redirected "shop:error_403", r.2)
    | some v => (.redirected v, r.2)

/-- The membership predicate the specification ascribes to the guard, written
from the claim's words for comparison with `user_auth`: required `None`
authorizes exactly the anonymous identity, a single role name exactly that
role, a list exactly its members (with `None` standing for anonymous). -/
def claimAuthorized (usertype : TypeSpec) (role : Option String) : Bool :=
  match usertype with
  | .anon => role == none
  | .single name => role == some name
  | .multi names => names.contains role

/-- Well-formedness of a required-role specification: every role name it
mentions exists in the `UserType` table and is a real (non-empty) name. -/
def specRolesValid (db : DB) : TypeSpec → Bool
  | .anon => true
  | .single name => db.usertypes.contains name
  | .multi names =>
    names.all (fun t =>
      match t with
      | none => true
      | some s => (!(s == "")) && db.usertypes.contains s)

/-- `logout_view(request)` from views.py: unconditionally clear the session
association and redirect to the login page.  Returns the redirect target and
the session after the flush. -/
def logout_view (session : Option Nat) : String × Option Nat :=
  (("shop:login"), associate_user_to_client session none)

/-- Modelled from the spec: `forms.py` is not in the source snapshot; the
username rule is "required, length 3–20". -/
def usernameValid (s : String) : Bool :=
  3 ≤ s.length && s.length ≤ 20

/-- Splitting a character list at every occurrence of a separator (empty
segments preserved), the character-level counterpart of `String.split`. -/
def splitOnChar (c : Char) : List Char → List (List Char)
  | [] => [[]]
  | a :: as =>
    let rest := splitOnChar c as
    if a == c then [] :: rest
    else
      match rest with
      | [] => [[a]]
      | r :: rs => (a :: r) :: rs

/-- Modelled from the spec: the email rule is "required, must contain a local
part, `@`, and a domain with at least one dot-segment". -/
def emailValid (s : String) : Bool :=
  match splitOnChar '@' s.toList with
  | [localPart, domain] =>
    (!localPart.isEmpty) &&
      (let segs := splitOnChar '.' domain
       2 ≤ segs.length && segs.all (fun t => !t.isEmpty))
  | _ => false

/-- Modelled from the spec: the back-end password rule is "required, length
exactly equal to the fixed hash-digest hex length" — 64, the length of a
sha256 hexdigest, the hash the repository's tests build such passwords with. -/
def passwordBEValid (s : String) : Bool :=
  s.length == 64

/-- Modelled from the spec: the back-end registration profile validates
username, email and the already-hashed password (no confirmation field). -/
def RegisterBEForm_valid (username email password : String) : Bool :=
  usernameValid username && emailValid email && passwordBEValid password

/-- Modelled from the spec: the back-end login profile validates the username
and the already-hashed password. -/
def LoginBEForm_valid (username password : String) : Bool :=
  usernameValid username && passwordBEValid password

/-- Modelled from the spec: the email-change payload carries the claimed
current email and the new email, both standard addresses. -/
def ChangeEmailForm_valid (curr_email new_email : String) : Bool :=
  emailValid curr_email && emailValid new_email

/-- Modelled from the spec: the back-end password-change profile expects the
claimed current password, the new password and its confirmation, each an
already-hashed value of the fixed digest length. -/
def ChangePasswordBEForm_valid (curr_password new_password new_password_again : String) : Bool :=
  passwordBEValid curr_password && passwordBEValid new_password
    && passwordBEValid new_password_again

/-- Modelled from the spec: `User.check_password` (`models.py` is not in the
source snapshot) verifies a "password hash match" — comparison of the stored
hash with the presented (already-hashed) value. -/
def check_password (u : UserR) (p : String) : Bool :=
  u.password == p

/-- Per-field errors of the login response form (both fields of the rendered
form; each carries the list of messages added by `add_error`). -/
structure LoginErrors where
  username : List String
  password : List String
  deriving Repr, DecidableEq

/-- Response of `LoginView.post`'s body: the re-rendered form with field
errors (`form_invalid`), or a redirect. -/
inductive LoginResponse where
  | formInvalid (errors : LoginErrors)
  | redirect (viewname : String)
  deriving Repr, DecidableEq

/-- `LoginView.post` body (the code the `user_auth(None, 'shop:logout')`
guard protects), from views.py: back-end re-validation, lookup by username,
hash check (a mismatch re-raises `DoesNotExist` into the same handler as an
unknown username), session binding and redirect on success.  Returns the
response together with the session after the call. -/
def loginPostBody (db : DB) (session : Option Nat) (username password : String) :
    LoginResponse × Option Nat :=
  if !(LoginBEForm_valid username password) then
    (.formInvalid ⟨["注册信息格式错误"], ["注册信息格式错误"]⟩, session)
  else
    match findUserByUsername db username with
    | some user =>
      if check_password user password then
        (.redirect "shop:goods_list", associate_user_to_client session (some user.id))
      else
        (.formInvalid ⟨["用户名或密码错误"], ["用户名或密码错误"]⟩, session)
    | none => (.formInvalid ⟨["用户名或密码错误"], ["用户名或密码错误"]⟩, session)

/-- Per-field errors of the registration response form (the four fields of
`RegisterFEForm`; `add_error(field, msg)` appends `msg` to that field). -/
structure RegErrors where
  username : List String
  email : List String
  password : List String
  password_again : List String
  deriving Repr, DecidableEq

/-- Response of `RegisterView.post`'s body. -/
inductive RegResponse where
  | formInvalid (errors : RegErrors)
  | redirect (viewname : String)
  deriving Repr, DecidableEq

/-- The loop `for field in response_form.fields: add_error(field, '注册信息格式错误')`:
the generic format-error message on every field of the response form. -/
def formatErrorAll : RegErrors :=
  ⟨["注册信息格式错误"], ["注册信息格式错误"], ["注册信息格式错误"], ["注册信息格式错误"]⟩

/-- `RegisterView.post` body from views.py: back-end re-validation, username
then email uniqueness checks, password-confirmation equality, then the insert.
`integrityFail` models the persistence layer raising `IntegrityError` at
`user.save()` (a concurrent duplicate insert); the except branch puts the
generic format error on every field.  The created user's id is `db.nextId`;
its role defaults to `normal` (modelled from the spec: a registered account is
a normal member).  Returns response, store and session after the call. -/
def registerPostBody (db : DB) (session : Option Nat)
    (username email password1 password2 : String) (integrityFail : Bool) :
    RegResponse × DB × Option Nat :=
  if !(RegisterBEForm_valid username email password1) then
    (.formInvalid formatErrorAll, db, session)
  else if !(db.users.filter (fun u => u.username == username)).isEmpty then
    (.formInvalid ⟨["该用户名已被使用"], [], [], []⟩, db, session)
  else if !(db.users.filter (fun u => u.email == email)).isEmpty then
    (.formInvalid ⟨[], ["该邮箱已被使用"], [], []⟩, db, session)
  else if password1 != password2 then
    (.formInvalid ⟨[], [], ["两次输入的密码不一致"], ["两次输入的密码不一致"]⟩, db, session)
  else if integrityFail then
    (.formInvalid formatErrorAll, db, session)
  else
    let user : UserR := ⟨db.nextId, username, email, password1, "normal"⟩
    let db' : DB := ⟨db.users ++ [user], db.usertypes, db.goods, db.nextId + 1⟩
    (.redirect "shop:goods_list", db', associate_user_to_client session (some user.id))

/-- Whether `small` starts `big` (character-list prefix test). -/
def listStartsWith : List Char → List Char → Bool
  | _, [] => true
  | [], _ :: _ => false
  | a :: as, b :: bs => a == b && listStartsWith as bs

/-- Whether `pat` occurs contiguously inside `s` (character lists). -/
def listContainsSub (s pat : List Char) : Bool :=
  match s with
  | [] => pat.isEmpty
  | _ :: rest => listStartsWith s pat || listContainsSub rest pat

/-- The queryset filter `goods_name__contains=kw`: substring match on the
name.  On the SQLite backend this match is case-insensitive (the repository's
tests rely on `think` matching `ThinkPad`), so both sides are lowered. -/
def nameContains (name kw : String) : Bool :=
  listContainsSub (name.toList.map Char.toLower) (kw.toList.map Char.toLower)

/-- `GoodsListView.get_queryset` from views.py: start from all goods, filter
by the optional `g` keyword (substring on the name), then by the optional `s`
seller id (exact match). -/
def get_queryset (db : DB) (g : Option String) (s : Option Nat) : List GoodsR :=
  let q1 :=
    match g with
    | some kw => db.goods.filter (fun x => nameContains x.goods_name kw)
    | none => db.goods
  match s with
  | some sid => q1.filter (fun x => x.seller_id == sid)
  | none => q1

/-- Rendered outcome of a goods-listing request: the 404 raised by
`get_object_or_404(User, id=s)` when the seller does not exist, or the page
with the filtered object list, the no-results indicator (modelled from the
spec: the template renders the indicator exactly when the object list is
empty), the echoed search text and the seller shown. -/
inductive ListResponse where
  | notFound
  | page (object_list : List GoodsR) (noResults : Bool)
      (search_text : Option String) (seller : Option UserR)
  deriving Repr, DecidableEq

/-- The goods-listing view (`GoodsListView.get_queryset` plus
`get_context_data`) from views.py, for a request with optional `g` and `s`
query parameters (`s` as the integer id the ORM coerces it to). -/
def goodsListView (db : DB) (g : Option String) (s : Option Nat) : ListResponse :=
  let q := get_queryset db g s
  match s with
  | some sid =>
    match findUserById db sid with
    | none => .notFound
    | some u => .page q q.isEmpty g (some u)
  | none => .page q q.isEmpty g none

/-- Outcome of `center_enter_view`'s body: a redirect, the `AttributeError`
raised by the `user.typp` attribute access (the `User` model defines no such
attribute — the spec itself flags it as a method-name typo for `user.type`),
or the `DoesNotExist` raised by a `UserType` lookup. -/
inductive CenterOutcome where
  | redirect (viewname : String)
  | attrError
  | lookupError
  deriving Repr, DecidableEq

/-- `center_enter_view` body from views.py (inside the
`user_auth(['normal','seller','admin'], 'shop:login')` guard): an anonymous
identity leaves `center_url = None` and falls through to the index redirect; a
`normal` user is redirected to `shop:member_info`; any other user reaches the
`elif user.typp == ...` test, whose left operand raises `AttributeError`
before the `seller` role is even looked up. -/
def center_enter_view_body (db : DB) (session : Option Nat) : CenterOutcome :=
  match (get_current_user db session).1 with
  | none => .redirect "shop:goods_list"
  | some user =>
    match getUserType db "normal" with
    | none => .lookupError
    | some t =>
      if user.type == t then .redirect "shop:member_info"
      else .attrError

/-- `center_enter_view` from views.py with its decorator applied. -/
def center_enter_view (db : DB) (session : Option Nat) :
    WrapResult CenterOutcome × Option Nat :=
  user_auth db (.multi [some "normal", some "seller", some "admin"]) (some "shop:login")
    (fun s => center_enter_view_body db s) session

/-- Modelled from the spec: the `APIResultBuilder` envelope
`{ results: ..., errors: ... }` together with the HTTP status passed to
`as_json_response` (`utils.py` is not in the source snapshot; a success
response carries status 200). -/
structure JsonEnvelope where
  results : List String
  errors : List String
  status : Nat
  deriving Repr, DecidableEq

/-- A response produced inside the API layer: a JSON envelope or a redirect. -/
inductive ApiResponse where
  | json (e : JsonEnvelope)
  | redirect (viewname : String)
  deriving Repr, DecidableEq

instance {ε α : Type} [DecidableEq ε] [DecidableEq α] : DecidableEq (Except ε α) := fun x y =>
  match x, y with
  | .ok a, .ok b =>
    if h : a = b then .isTrue (by rw [h]) else .isFalse (fun hc => h (Except.ok.inj hc))
  | .ok _, .error _ => .isFalse (fun hc => Except.noConfusion hc)
  | .error _, .ok _ => .isFalse (fun hc => Except.noConfusion hc)
  | .error e, .error f =>
    if h : e = f then .isTrue (by rw [h]) else .isFalse (fun hc => h (Except.error.inj hc))

/-- The role list `['normal', 'seller', 'admin']` every `APIView` dispatch is
guarded with. -/
def apiRoles : TypeSpec :=
  .multi [some "normal", some "seller", some "admin"]

/-- Updating `email` of the user row `uid` by `user.save()`.  Modelled from
the spec: the store enforces the unique constraint on `email` on update, so
saving an email another user already holds raises `IntegrityError`
(`.error ()`), which `UserEmailAPIView.update` does not catch. -/
def updateUserEmail (db : DB) (uid : Nat) (newEmail : String) : Except Unit DB :=
  if db.users.any (fun u => u.id != uid && u.email == newEmail) then .error ()
  else
    .ok ⟨db.users.map (fun u => if u.id == uid then { u with email := newEmail } else u),
      db.usertypes, db.goods, db.nextId⟩

/-- Updating `password` of the user row `uid` by `user.save()` (no uniqueness
constraint on passwords). -/
def updateUserPassword (db : DB) (uid : Nat) (newPassword : String) : DB :=
  ⟨db.users.map (fun u => if u.id == uid then { u with password := newPassword } else u),
    db.usertypes, db.goods, db.nextId⟩

/-- `UserEmailAPIView.update` from views.py: validate the payload (412 on
failure), fetch the current user (`user.email` on `None` raises, `.error ()`),
compare the claimed current email with the stored one; on match save the new
email (an `IntegrityError` from the unique constraint propagates), else 412
with the store unchanged. -/
def UserEmailAPIView_update (db : DB) (session : Option Nat)
    (curr_email new_email : String) : Except Unit (ApiResponse × DB) :=
  if !(ChangeEmailForm_valid curr_email new_email) then
    .ok (.json ⟨[], ["Parameters format not correct error."], 412⟩, db)
  else
    match (get_current_user db session).1 with
    | none => .error ()
    | some user =>
      if user.email == curr_email then
        match updateUserEmail db user.id new_email with
        | .ok db' => .ok (.json ⟨["User-email changed successful."], [], 200⟩, db')
        | .error _ => .error ()
      else
        .ok (.json ⟨[], ["The current user-email is incorrect."], 412⟩, db)

/-- `UserPasswordAPIView.update` from views.py: validate the payload (412 on
failure), fetch the current user, reject mismatched new passwords (412, and
this check precedes any attribute access on the user), then check the claimed
current password; on match save the new password, else 412 unchanged. -/
def UserPasswordAPIView_update (db : DB) (session : Option Nat)
    (curr_password new_password new_password_again : String) :
    Except Unit (ApiResponse × DB) :=
  if !(ChangePasswordBEForm_valid curr_password new_password new_password_again) then
    .ok (.json ⟨[], ["Parameters format not correct error."], 412⟩, db)
  else
    let user := (get_current_user db session).1
    if new_password != new_password_again then
      .ok (.json ⟨[], ["Two new passwords do not match."], 412⟩, db)
    else
      match user with
      | none => .error ()
      | some u =>
        if check_password u curr_password then
          .ok (.json ⟨["User-password changed successful."], [], 200⟩,
            updateUserPassword db u.id new_password)
        else
          .ok (.json ⟨[], ["The current user-password is incorrect."], 412⟩, db)

/-- Overall outcome of one API request: a response, or an exception that
escaped the decorated `dispatch` itself. -/
inductive ApiOutcome where
  | response (r : ApiResponse)
  | raised
  deriving Repr, DecidableEq

/-- `APIView.dispatch` from views.py with its
`user_auth(['normal','seller','admin'], 'shop:api_unauthorized_error')`
decorator: an unauthorized caller gets a redirect to the unauthorized-error
endpoint; inside the guard, `try: ... except Exception:` converts any failure
of the inner handler into a redirect to the server-error endpoint (the failed
statement is not committed, so the store is unchanged).  A `DoesNotExist`
raised by the guard itself happens outside the try and escapes. -/
def APIView_dispatch (db : DB) (session : Option Nat)
    (inner : Option Nat → Except Unit (ApiResponse × DB)) :
    ApiOutcome × DB × Option Nat :=
  match user_auth db apiRoles (some "shop:api_unauthorized_error") inner session with
  | (.invoked (Except.ok (resp, db')), s') => (.response resp, db', s')
  | (.invoked (Except.error _), s') => (.response (.redirect "shop:api_server_error"), db, s')
  | (.redirected v, s') => (.response (.redirect v), db, s')
  | (.raised, s') => (.raised, db, s')

/-- `UnauthorizedErrorApiView.get` from views.py: the 403 JSON envelope.  The
view inherits `APIView.dispatch`, so reaching this handler requires passing
the same authorization guard. -/
def UnauthorizedErrorApiView_get (db : DB) : Except Unit (ApiResponse × DB) :=
  .ok (.json ⟨[], ["No access for unauthorized."], 403⟩, db)

/-- A GET on `UnauthorizedErrorApiView`, guard included. -/
def UnauthorizedErrorApiView_dispatch (db : DB) (session : Option Nat) :
    ApiOutcome × DB × Option Nat :=
  APIView_dispatch db session (fun _ => UnauthorizedErrorApiView_get db)

/-- `ServerErrorApiView.get` from views.py: the 500 JSON envelope (a fixed
message, no stack trace). -/
def ServerErrorApiView_get (db : DB) : Except Unit (ApiResponse × DB) :=
  .ok (.json ⟨[], ["Internal server error."], 500⟩, db)

/-- A GET on `ServerErrorApiView`, guard included. -/
def ServerErrorApiView_dispatch (db : DB) (session : Option Nat) :
    ApiOutcome × DB × Option Nat :=
  APIView_dispatch db session (fun _ => ServerErrorApiView_get db)

/-- A 64-character value standing for a sha256 hexdigest. -/
def hashA : String := String.mk (List.replicate 64 'a')

/-- A second, distinct 64-character hash value. -/
def hashB : String := String.mk (List.replicate 64 'b')

/-- Sample user: a normal member. -/
def alice : UserR := ⟨1, "alice", "alice@example.com", hashA, "normal"⟩

/-- Sample user: a seller. -/
def bob : UserR := ⟨2, "bob", "bob@example.com", hashB, "seller"⟩

/-- Sample user: an admin. -/
def cara : UserR := ⟨3, "cara", "cara@example.com", hashA, "admin"⟩

/-- Sample goods rows (two owned by the seller, one by the admin). -/
def sampleGoods : List GoodsR :=
  [⟨1, "ThinkPad X390", 2⟩, ⟨2, "2019 watch", 2⟩, ⟨3, "book 2019", 3⟩]

/-- A populated store: the three roles, three users, three goods rows. -/
def sampleDB : DB :=
  ⟨[alice, bob, cara], ["normal", "seller", "admin"], sampleGoods, 4⟩

/-- A store holding only the role table, as before any registration. -/
def emptyDB : DB := ⟨[], ["normal", "seller", "admin"], [], 1⟩

/-- A role lookup succeeds exactly on the names present in the table. -/
theorem getUserType_of_contains {db : DB} {name : String}
    (h : db.usertypes.contains name = true) : getUserType db name = some name := by
  simp only [getUserType, h, if_true]

/-- On a well-formed role list the comprehension raises nothing and maps every
item to itself (`None` and role names are preserved). -/
theorem authRoleList_of_valid (db : DB) :
    ∀ names : List (Option String), specRolesValid db (.multi names) = true →
      authRoleList db names = some names := by
  intro names
  induction names with
  | nil => intro _; rfl
  | cons t ts ih =>
    intro h
    simp only [specRolesValid, List.all_cons, Bool.and_eq_true] at h
    obtain ⟨h1, h2⟩ := h
    have hrest : authRoleList db ts = some ts := ih h2
    cases t with
    | none => simp [authRoleList, hrest]
    | some s =>
      simp only [Bool.and_eq_true, Bool.not_eq_eq_eq_not, Bool.not_true] at h1
      obtain ⟨hne, hmem⟩ := h1
      have hs : ¬ s = "" := by
        intro hcon
        simp [hcon] at hne
      simp [authRoleList, hrest, hs, getUserType_of_contains hmem]

/-- On a well-formed specification the code's authorization test computes the
membership predicate the specification describes, and never raises. -/
theorem checkAuth_eq_claim (db : DB) (spec : TypeSpec) (role : Option String)
    (h : specRolesValid db spec = true) :
    checkAuth db spec role = some (claimAuthorized spec role) := by
  cases spec with
  | anon => rfl
  | single name =>
    simp only [specRolesValid] at h
    simp [checkAuth, claimAuthorized, getUserType_of_contains h]
  | multi names =>
    simp [checkAuth, claimAuthorized, authRoleList_of_valid db names h]

/-- C1: for every wrapped handler and request, `user_auth` authorizes exactly
by membership of the caller's role (anonymous = `none`) in the required
specification; on success it invokes the handler on the request as identity
resolution left it and returns its result, on failure it returns a redirect to
the fallback view (default `shop:error_403`) without invoking the handler and
without raising. -/
theorem C1_user_auth_authorizes_by_membership {α : Type} (db : DB) (session : Option Nat)
    (spec : TypeSpec) (ev : Option String) (func : Option Nat → α)
    (hspec : specRolesValid db spec = true) :
    (claimAuthorized spec ((get_current_user db session).1.map UserR.type) = true →
      user_auth db spec ev func session =
        (.invoked (func (get_current_user db session).2), (get_current_user db session).2)) ∧
    (claimAuthorized spec ((get_current_user db session).1.map UserR.type) = false →
      user_auth db spec ev func session =
        (.redirected (ev.getD "shop:error_403"), (get_current_user db session).2)) := by
  constructor
  · intro hauth
    simp [user_auth, checkAuth_eq_claim db spec _ hspec, hauth]
  · intro hauth
    cases ev with
    | none => simp [user_auth, checkAuth_eq_claim db spec _ hspec, hauth]
    | some v => simp [user_auth, checkAuth_eq_claim db spec _ hspec, hauth]

/-- Witness for C1: in the sample store, the member-info guard
`user_auth('normal')` admits the logged-in normal member and the request
reaches the handler; the same guard turns the seller away to the 403 view. -/
theorem C1_witness :
    user_auth sampleDB (.single "normal") none (fun s => s) (some 1) =
      (.invoked (some 1), some 1) ∧
    user_auth sampleDB (.single "normal") none (fun s => s) (some 2) =
      (.redirected "shop:error_403", some 2) := by
  constructor
  · exact (C1_user_auth_authorizes_by_membership sampleDB (some 1) (.single "normal")
      none (fun s => s) (by decide)).1 (by decide)
  · exact (C1_user_auth_authorizes_by_membership sampleDB (some 2) (.single "normal")
      none (fun s => s) (by decide)).2 (by decide)

/-- C3: identity resolution returns an existing user referenced by the
session's `user_id` or anonymous; a dangling `user_id` self-heals by clearing
the association and resolving to anonymous; after any resolution the session
is empty or references an existing user; `bind` with `None` flushes the
session, with an id stores it. -/
theorem C3_identity_resolution_invariant (db : DB) (session : Option Nat) :
    ((get_current_user db session).1 = none ∨
      ∃ user, user ∈ db.users ∧ (get_current_user db session).1 = some user ∧
        session = some user.id ∧ (get_current_user db session).2 = some user.id) ∧
    (∀ uid, session = some uid → findUserById db uid = none →
      get_current_user db session = (none, none)) ∧
    ((get_current_user db session).2 = none ∨
      ∃ user, user ∈ db.users ∧ (get_current_user db session).2 = some user.id) ∧
    (associate_user_to_client session none = none) ∧
    (∀ uid, associate_user_to_client session (some uid) = some uid) := by
  refine ⟨?_, ?_, ?_, rfl, fun uid => rfl⟩
  · cases hs : session with
    | none => left; simp [get_current_user]
    | some uid =>
      cases hf : findUserById db uid with
      | none => left; simp [get_current_user, hf]
      | some u =>
        right
        refine ⟨u, List.mem_of_find?_eq_some hf, ?_⟩
        have hid : u.id = uid := by
          have := List.find?_some hf
          simpa using this
        simp [get_current_user, hf, hid]
  · intro uid hs hf
    subst hs
    simp [get_current_user, hf, associate_user_to_client]
  · cases hs : session with
    | none => left; simp [get_current_user]
    | some uid =>
      cases hf : findUserById db uid with
      | none => left; simp [get_current_user, hf, associate_user_to_client]
      | some u =>
        right
        refine ⟨u, List.mem_of_find?_eq_some hf, ?_⟩
        have hid : u.id = uid := by
          have := List.find?_some hf
          simpa using this
        simp [get_current_user, hf, hid]

/-- Witness for C3: in the sample store a session holding the dangling id 9
resolves to anonymous with the association cleared, and binding clears or
stores as specified. -/
theorem C3_witness :
    get_current_user sampleDB (some 9) = (none, none) ∧
    associate_user_to_client (some 1) none = none ∧
    associate_user_to_client none (some 7) = some 7 := by
  refine ⟨?_, ?_, ?_⟩
  · exact (C3_identity_resolution_invariant sampleDB (some 9)).2.1 9 rfl (by decide)
  · exact (C3_identity_resolution_invariant sampleDB (some 1)).2.2.2.1
  · exact (C3_identity_resolution_invariant sampleDB none).2.2.2.2 7

/-- C10: `RegisterView.get/post` and `LoginView.get/post` are all decorated
with `user_auth(usertype=None, error_viewname='shop:logout')`, so for an
authenticated user any GET or POST to the register or login page is redirected
to the logout view — whose handler unconditionally flushes the session and
redirects to the login page. -/
theorem C10_visiting_register_or_login_logs_out {α : Type} (db : DB) (session : Option Nat)
    (u : UserR) (hu : (get_current_user db session).1 = some u)
    (handler : Option Nat → α) :
    user_auth db .anon (some "shop:logout") handler session =
      (.redirected "shop:logout", (get_current_user db session).2) ∧
    (∀ s : Option Nat, logout_view s = ("shop:login", none)) := by
  constructor
  · simp [user_auth, checkAuth, hu]
  · intro s; rfl

/-- Witness for C10: the logged-in normal member who merely opens the login or
register page is sent to the logout view, and the logout view flushes the
session and redirects to the login page. -/
theorem C10_witness :
    user_auth sampleDB .anon (some "shop:logout") (fun s => s) (some 1) =
      (.redirected "shop:logout", some 1) ∧
    logout_view (some 1) = ("shop:login", none) := by
  have h := C10_visiting_register_or_login_logs_out sampleDB (some 1) alice
    (by decide) (fun s => s)
  exact ⟨h.1, h.2 (some 1)⟩

/-- C2: for a login POST passing back-end validation, an unknown username and
a failed password-hash check produce the very same response — the one generic
message on both the username and the password field, with the session
untouched; a matching username and hash bind the session to the user's id and
redirect to the goods listing. -/
theorem C2_login_failures_indistinguishable (db : DB) (session : Option Nat)
    (username password : String) (hv : LoginBEForm_valid username password = true) :
    ((findUserByUsername db username = none ∨
      ∃ u, findUserByUsername db username = some u ∧ check_password u password = false) →
      loginPostBody db session username password =
        (.formInvalid ⟨["用户名或密码错误"], ["用户名或密码错误"]⟩, session)) ∧
    (∀ u, findUserByUsername db username = some u → check_password u password = true →
      loginPostBody db session username password =
        (.redirect "shop:goods_list", some u.id)) := by
  constructor
  · rintro (hf | ⟨u, hf, hc⟩)
    · simp [loginPostBody, hv, hf]
    · simp [loginPostBody, hv, hf, hc]
  · intro u hf hc
    simp [loginPostBody, hv, hf, hc, associate_user_to_client]

/-- Witness for C2: in the sample store a wrong username and a wrong password
for `alice` yield the identical double-field error with the session untouched,
and the correct pair redirects to the goods listing with the session bound. -/
theorem C2_witness :
    loginPostBody sampleDB none "nosuch" hashA =
      (.formInvalid ⟨["用户名或密码错误"], ["用户名或密码错误"]⟩, none) ∧
    loginPostBody sampleDB none "alice" hashB =
      (.formInvalid ⟨["用户名或密码错误"], ["用户名或密码错误"]⟩, none) ∧
    loginPostBody sampleDB none "alice" hashA = (.redirect "shop:goods_list", some 1) := by
  refine ⟨?_, ?_, ?_⟩
  · exact (C2_login_failures_indistinguishable sampleDB none "nosuch" hashA
      (by decide)).1 (Or.inl (by decide))
  · exact (C2_login_failures_indistinguishable sampleDB none "alice" hashB
      (by decide)).1 (Or.inr ⟨alice, by decide, by decide⟩)
  · exact (C2_login_failures_indistinguishable sampleDB none "alice" hashA
      (by decide)).2 alice (by decide) (by decide)

/-- C4: registering with valid back-end data, an unused username, an unused
email and matching passwords appends exactly one user record, binds the
session to its id and redirects to the goods listing; repeating the identical
registration against the resulting store creates nothing and fails with the
"username already used" error on the username field. -/
theorem C4_register_once_then_duplicate_rejected (db : DB) (session s2 : Option Nat)
    (username email pw : String)
    (hv : RegisterBEForm_valid username email pw = true)
    (hun : db.users.filter (fun u => u.username == username) = [])
    (hem : db.users.filter (fun u => u.email == email) = []) :
    registerPostBody db session username email pw pw false =
      (.redirect "shop:goods_list",
        ⟨db.users ++ [⟨db.nextId, username, email, pw, "normal"⟩],
          db.usertypes, db.goods, db.nextId + 1⟩,
        some db.nextId) ∧
    (∀ f2 : Bool,
      registerPostBody
        ⟨db.users ++ [⟨db.nextId, username, email, pw, "normal"⟩],
          db.usertypes, db.goods, db.nextId + 1⟩
        s2 username email pw pw f2 =
      (.formInvalid ⟨["该用户名已被使用"], [], [], []⟩,
        ⟨db.users ++ [⟨db.nextId, username, email, pw, "normal"⟩],
          db.usertypes, db.goods, db.nextId + 1⟩,
        s2)) := by
  constructor
  · simp [registerPostBody, hv, hun, hem, associate_user_to_client]
  · intro f2
    have hfil : ((db.users ++ [(⟨db.nextId, username, email, pw, "normal"⟩ : UserR)]).filter
        (fun u => u.username == username)) = [⟨db.nextId, username, email, pw, "normal"⟩] := by
      simp [List.filter_append, hun]
    simp [registerPostBody, hv, hfil]

/-- Witness for C4: registering `abc` with `a@b.com` against the empty store
succeeds once (one record, session bound, redirect) and the identical repeat
fails on the username field without a second record. -/
theorem C4_witness :
    registerPostBody emptyDB none "abc" "a@b.com" hashA hashA false =
      (.redirect "shop:goods_list",
        ⟨[⟨1, "abc", "a@b.com", hashA, "normal"⟩], ["normal", "seller", "admin"], [], 2⟩,
        some 1) ∧
    registerPostBody
        ⟨[⟨1, "abc", "a@b.com", hashA, "normal"⟩], ["normal", "seller", "admin"], [], 2⟩
        none "abc" "a@b.com" hashA hashA false =
      (.formInvalid ⟨["该用户名已被使用"], [], [], []⟩,
        ⟨[⟨1, "abc", "a@b.com", hashA, "normal"⟩], ["normal", "seller", "admin"], [], 2⟩,
        none) := by
  have h := C4_register_once_then_duplicate_rejected emptyDB none none "abc" "a@b.com" hashA
    (by decide) (by decide) (by decide)
  exact ⟨h.1, h.2 false⟩

/-- C8: when the insert raises the persistence layer's `IntegrityError`, the
handler catches it and returns the form-invalid response with the generic
format-error message on every field; the store gains no record, the session is
not bound, and nothing is re-raised or retried. -/
theorem C8_integrity_error_becomes_format_error (db : DB) (session : Option Nat)
    (username email pw1 pw2 : String)
    (hv : RegisterBEForm_valid username email pw1 = true)
    (hun : db.users.filter (fun u => u.username == username) = [])
    (hem : db.users.filter (fun u => u.email == email) = [])
    (hpw : pw1 = pw2) :
    registerPostBody db session username email pw1 pw2 true =
      (.formInvalid formatErrorAll, db, session) := by
  subst hpw
  simp [registerPostBody, hv, hun, hem]

/-- Witness for C8: a well-formed registration of `abc` that hits the
constraint-violation signal at save time comes back as the generic format
error on every field, with the empty store and session untouched. -/
theorem C8_witness :
    registerPostBody emptyDB none "abc" "a@b.com" hashA hashA true =
      (.formInvalid formatErrorAll, emptyDB, none) := by
  exact C8_integrity_error_becomes_format_error emptyDB none "abc" "a@b.com" hashA hashA
    (by decide) (by decide) (by decide) rfl

/-- Membership in the filtered queryset: a row survives exactly when it passes
the optional keyword filter and the optional seller filter together. -/
theorem mem_get_queryset (db : DB) (g : Option String) (s : Option Nat) (x : GoodsR) :
    x ∈ get_queryset db g s ↔ x ∈ db.goods ∧
      (∀ kw, g = some kw → nameContains x.goods_name kw = true) ∧
      (∀ sid, s = some sid → x.seller_id = sid) := by
  cases g with
  | none =>
    cases s with
    | none => simp [get_queryset]
    | some sid => simp [get_queryset, List.mem_filter]
  | some kw =>
    cases s with
    | none => simp [get_queryset, List.mem_filter, and_assoc]
    | some sid =>
      simp [get_queryset, List.mem_filter, and_assoc]
      intro _
      constructor
      · rintro ⟨h1, h2⟩; exact ⟨h2, h1⟩
      · rintro ⟨h1, h2⟩; exact ⟨h2, h1⟩

/-- C9: the goods listing shows exactly the goods passing both the optional
name-keyword filter and the optional seller filter (logical AND); a seller id
that matches no user yields the not-found response; the no-results indicator
is set exactly when the filtered set is empty. -/
theorem C9_goods_listing_filters (db : DB) (g : Option String) (s : Option Nat) :
    (∀ sid, s = some sid → findUserById db sid = none → goodsListView db g s = .notFound) ∧
    (∀ sid u, s = some sid → findUserById db sid = some u →
      goodsListView db g s =
        .page (get_queryset db g s) (get_queryset db g s).isEmpty g (some u)) ∧
    (s = none → goodsListView db g s =
      .page (get_queryset db g s) (get_queryset db g s).isEmpty g none) ∧
    (∀ x, x ∈ get_queryset db g s ↔ x ∈ db.goods ∧
      (∀ kw, g = some kw → nameContains x.goods_name kw = true) ∧
      (∀ sid, s = some sid → x.seller_id = sid)) ∧
    ((get_queryset db g s).isEmpty = true ↔ get_queryset db g s = []) := by
  refine ⟨?_, ?_, ?_, fun x => mem_get_queryset db g s x, by simp⟩
  · intro sid hs hf
    subst hs
    simp [goodsListView, hf]
  · intro sid u hs hf
    subst hs
    simp [goodsListView, hf]
  · intro hs
    subst hs
    simp [goodsListView]

/-- Witness for C9: against the sample store, seller id 99 is not-found, the
`2019` keyword combined with seller 2 leaves exactly the one matching row, and
a keyword with no match sets the no-results indicator on an empty list. -/
theorem C9_witness :
    goodsListView sampleDB none (some 99) = .notFound ∧
    goodsListView sampleDB (some "2019") (some 2) =
      .page [⟨2, "2019 watch", 2⟩] false (some "2019") (some bob) ∧
    goodsListView sampleDB (some "zzz") none = .page [] true (some "zzz") none := by
  refine ⟨?_, ?_, ?_⟩
  · exact (C9_goods_listing_filters sampleDB none (some 99)).1 99 rfl (by decide)
  · have h := (C9_goods_listing_filters sampleDB (some "2019") (some 2)).2.1 2 bob rfl
      (by decide)
    rw [h]; decide
  · have h := (C9_goods_listing_filters sampleDB (some "zzz") none).2.2.1 rfl
    rw [h]; decide

/-- C6 (code bug): in the sample store the user-center entry view redirects
the `normal` member to the member-info page, but for the `seller` and the
`admin` the `elif user.typp == ...` branch raises `AttributeError` — the view
does not redirect all three roles to the member-info URL as claimed. -/
theorem C6_seller_admin_raise_attribute_error :
    center_enter_view sampleDB (some 1) =
      (.invoked (CenterOutcome.redirect "shop:member_info"), some 1) ∧
    center_enter_view sampleDB (some 2) = (.invoked CenterOutcome.attrError, some 2) ∧
    center_enter_view sampleDB (some 3) = (.invoked CenterOutcome.attrError, some 3) := by
  decide

/-- C5 (counterexample): an anonymous POST to the email-change API comes back
as a redirect to the unauthorized-error endpoint — not as the claimed JSON
error envelope with HTTP status 403 (the redirect differs from the envelope
that endpoint's handler would build). -/
theorem C5_counterexample :
    (APIView_dispatch sampleDB none
        (fun s => UserEmailAPIView_update sampleDB s "alice@example.com" "x@y.com")).1 =
      .response (.redirect "shop:api_unauthorized_error") ∧
    ApiOutcome.response (.redirect "shop:api_unauthorized_error") ≠
      ApiOutcome.response (.json ⟨[], ["No access for unauthorized."], 403⟩) := by
  decide

/-- C5 (amended): an unauthenticated API caller receives a redirect to the
unauthorized-error endpoint, whose own guarded dispatch sends the anonymous
caller the very same redirect again (so the 403 JSON body is never reached
anonymously); an unexpected failure inside a handler is caught at the dispatch
boundary and turned into a redirect to the server-error endpoint, whose GET
returns, to an authorized caller, the fixed 500 JSON envelope — never a stack
trace, and in either failure the store is unchanged. -/
theorem C5_amended_api_error_routing (db : DB)
    (hroles : specRolesValid db apiRoles = true) :
    (∀ (session : Option Nat) (inner : Option Nat → Except Unit (ApiResponse × DB)),
      (get_current_user db session).1 = none →
      APIView_dispatch db session inner =
        (.response (.redirect "shop:api_unauthorized_error"), db,
          (get_current_user db session).2) ∧
      UnauthorizedErrorApiView_dispatch db session =
        (.response (.redirect "shop:api_unauthorized_error"), db,
          (get_current_user db session).2)) ∧
    (∀ (session : Option Nat) (u : UserR)
        (inner : Option Nat → Except Unit (ApiResponse × DB)),
      (get_current_user db session).1 = some u →
      claimAuthorized apiRoles (some u.type) = true →
      (∀ s', inner s' = .error ()) →
      APIView_dispatch db session inner =
        (.response (.redirect "shop:api_server_error"), db,
          (get_current_user db session).2) ∧
      ServerErrorApiView_dispatch db session =
        (.response (.json ⟨[], ["Internal server error."], 500⟩), db,
          (get_current_user db session).2)) := by
  constructor
  · intro session inner hanon
    have hc : checkAuth db apiRoles none = some false := by
      rw [checkAuth_eq_claim db apiRoles none hroles]
      decide
    constructor
    · simp [APIView_dispatch, user_auth, hanon, hc]
    · simp [UnauthorizedErrorApiView_dispatch, APIView_dispatch, user_auth, hanon, hc]
  · intro session u inner hu hauth hfail
    have hc : checkAuth db apiRoles (some u.type) = some true := by
      rw [checkAuth_eq_claim db apiRoles (some u.type) hroles, hauth]
    constructor
    · simp [APIView_dispatch, user_auth, hu, hc, hfail]
    · simp [ServerErrorApiView_dispatch, APIView_dispatch, user_auth, hu, hc,
        ServerErrorApiView_get]

/-- Witness for C5 (amended): in the sample store the anonymous caller is
redirected to the unauthorized-error endpoint (and again from that endpoint
itself), while for the logged-in member a failing handler is converted into
the server-error redirect and the server-error GET returns the 500 envelope. -/
theorem C5_witness :
    APIView_dispatch sampleDB none (fun _ => Except.error ()) =
      (.response (.redirect "shop:api_unauthorized_error"), sampleDB, none) ∧
    UnauthorizedErrorApiView_dispatch sampleDB none =
      (.response (.redirect "shop:api_unauthorized_error"), sampleDB, none) ∧
    APIView_dispatch sampleDB (some 1) (fun _ => Except.error ()) =
      (.response (.redirect "shop:api_server_error"), sampleDB, some 1) ∧
    ServerErrorApiView_dispatch sampleDB (some 1) =
      (.response (.json ⟨[], ["Internal server error."], 500⟩), sampleDB, some 1) := by
  have h1 := (C5_amended_api_error_routing sampleDB (by decide)).1 none
    (fun _ => Except.error ()) (by decide)
  have h2 := (C5_amended_api_error_routing sampleDB (by decide)).2 (some 1) alice
    (fun _ => Except.error ()) (by decide) (by decide) (fun _ => rfl)
  exact ⟨h1.1, h1.2, h2.1, h2.2⟩

/-- C7 (counterexample): the logged-in member whose claimed current email is
correct asks to change it to an address another user already holds; the
payload passes validation and the current value matches, yet no success
envelope is produced and no change is applied — the save raises the
uniqueness `IntegrityError`, which the handler does not catch. -/
theorem C7_counterexample :
    ChangeEmailForm_valid "alice@example.com" "bob@example.com" = true ∧
    (get_current_user sampleDB (some 1)).1 = some alice ∧
    alice.email = "alice@example.com" ∧
    UserEmailAPIView_update sampleDB (some 1) "alice@example.com" "bob@example.com" =
      .error () := by
  decide

/-- C7 (amended): for an authenticated caller with a payload passing back-end
validation, the email change is applied with a success envelope iff the
claimed current email matches the stored one and the new email is not already
held by another user (a wrong current value yields the 412 envelope with the
store unchanged; a matching current value with a colliding new email raises,
escalating to the dispatch boundary instead of a 412); the password change is
applied with a success envelope iff the two new-password fields are equal and
the claimed current password passes the hash check, and otherwise yields the
412 envelope with the store unchanged. -/
theorem C7_amended_api_updates (db : DB) (session : Option Nat) (u : UserR)
    (hu : (get_current_user db session).1 = some u) :
    (∀ curr new, ChangeEmailForm_valid curr new = true →
      (u.email = curr → db.users.any (fun v => v.id != u.id && v.email == new) = false →
        UserEmailAPIView_update db session curr new =
          .ok (.json ⟨["User-email changed successful."], [], 200⟩,
            ⟨db.users.map (fun v => if v.id == u.id then { v with email := new } else v),
              db.usertypes, db.goods, db.nextId⟩)) ∧
      (u.email ≠ curr →
        UserEmailAPIView_update db session curr new =
          .ok (.json ⟨[], ["The current user-email is incorrect."], 412⟩, db)) ∧
      (u.email = curr → db.users.any (fun v => v.id != u.id && v.email == new) = true →
        UserEmailAPIView_update db session curr new = .error ())) ∧
    (∀ curr new again, ChangePasswordBEForm_valid curr new again = true →
      (new = again → check_password u curr = true →
        UserPasswordAPIView_update db session curr new again =
          .ok (.json ⟨["User-password changed successful."], [], 200⟩,
            updateUserPassword db u.id new)) ∧
      (new ≠ again →
        UserPasswordAPIView_update db session curr new again =
          .ok (.json ⟨[], ["Two new passwords do not match."], 412⟩, db)) ∧
      (new = again → check_password u curr = false →
        UserPasswordAPIView_update db session curr new again =
          .ok (.json ⟨[], ["The current user-password is incorrect."], 412⟩, db))) := by
  constructor
  · intro curr new hv
    refine ⟨?_, ?_, ?_⟩
    · intro hcurr hno
      simp [UserEmailAPIView_update, hv, hu, hcurr, updateUserEmail, hno]
    · intro hcurr
      simp [UserEmailAPIView_update, hv, hu, hcurr]
    · intro hcurr hcoll
      simp [UserEmailAPIView_update, hv, hu, hcurr, updateUserEmail, hcoll]
  · intro curr new again hv
    refine ⟨?_, ?_, ?_⟩
    · intro hne hc
      subst hne
      simp [UserPasswordAPIView_update, hv, hu, hc]
    · intro hne
      simp [UserPasswordAPIView_update, hv, hu, bne_iff_ne, hne]
    · intro hne hc
      subst hne
      simp [UserPasswordAPIView_update, hv, hu, hc]

/-- Witness for C7 (amended): in the sample store the member changes the email
to a fresh address and gets the success envelope with the record updated, and
a password change with a wrong claimed current password gets the 412 envelope
with the store unchanged. -/
theorem C7_witness :
    UserEmailAPIView_update sampleDB (some 1) "alice@example.com" "alice2@example.com" =
      .ok (.json ⟨["User-email changed successful."], [], 200⟩,
        ⟨[{ alice with email := "alice2@example.com" }, bob, cara],
          ["normal", "seller", "admin"], sampleGoods, 4⟩) ∧
    UserPasswordAPIView_update sampleDB (some 1) hashB hashB hashB =
      .ok (.json ⟨[], ["The current user-password is incorrect."], 412⟩, sampleDB) := by
  constructor
  · have h := ((C7_amended_api_updates sampleDB (some 1) alice (by decide)).1
      "alice@example.com" "alice2@example.com" (by decide)).1 (by decide) (by decide)
    rw [h]; decide
  · exact ((C7_amended_api_updates sampleDB (some 1) alice (by decide)).2
      hashB hashB hashB (by decide)).2.2 rfl (by decide)

end DjangoShop
